import Mathlib

/-!
# Verification of the twitter_bot content pipeline and approval state machine

Shallow embedding of the reply-bot pipeline implemented in
`src/index.ts` (account polling, search discovery, feedback loop — the third
document bundled into `src/routes/webhook.ts`), `src/services/twitter.ts`
(response parsing, publish-call classification), `src/services/telegram.ts`
(approval command handlers) and `src/db.ts` (table schema and uniqueness
constraints).

Modelling conventions:
- SQLite tables become lists of row structures inside a `Db` state record;
  autoincrement ids are a `next…Id` counter.  A plain `INSERT` into a table
  with a UNIQUE column is `Except`-valued: it returns `.error` (the thrown
  `SqliteError`) when the unique key is already present, mirroring
  better-sqlite3, which throws on constraint violation.
- Timestamps (`CURRENT_TIMESTAMP`, `Date.now()`, tweet `createdAt` dates) are
  naturals counting milliseconds; `DATETIME` string comparison in SQL is
  order-isomorphic to comparison of the instants, so `Nat` comparison models it.
- External calls (tweet fetching, AI generation, publishing, engagement
  fetching) are oracle parameters: the handler receives the outcome the
  external world produced and we verify how the handler reacts to each
  possible outcome.
- Operator-visible messages are abstracted to a `Msg` tag type: the exact
  formatted text is presentation, the identity and number of messages is what
  the spec constrains.
- JS strings are modelled by Lean `String`; the concrete inputs used in
  witnesses and counterexamples are ASCII, where JS UTF-16 `length` and Lean
  codepoint `length` agree.
-/

/-! ## Character/text helpers used by the quality filter

These model the JS regular-expression operations in
`passesTweetQualityFilter` (src/index.ts) at the level of character lists.
-/

/-- JS `\w` word character: ASCII letter, digit or underscore. -/
def isWordCharJS (c : Char) : Bool := c.isAlphanum || c == '_'

/-- `true` when position `i` of `l` exists and holds a non-whitespace
character (JS `\S`). -/
def nonSpaceAt (l : List Char) (i : Nat) : Bool :=
  match l.get? i with
  | some c => !c.isWhitespace
  | none => false

/-- A match of `https?:\/\/\S+` begins at the head of `l`: the scheme prefix
is present and at least one non-space character follows it. -/
def urlStart (l : List Char) : Bool :=
  (List.isPrefixOf "http://".toList l && nonSpaceAt l 7) ||
  (List.isPrefixOf "https://".toList l && nonSpaceAt l 8)

/-- Fuel-driven worker for `stripUrls`; fuel `≥` length of the list makes the
fuel bound unreachable. -/
def stripUrlsFuel : Nat → List Char → List Char
  | 0, _ => []
  | _, [] => []
  | fuel + 1, c :: rest =>
    if urlStart (c :: rest) then
      -- greedy `\S+`: the match consumes the whole maximal non-space run
      -- starting at the scheme (the scheme characters themselves are
      -- non-space, so dropping the run from `rest` removes the match).
      stripUrlsFuel fuel (rest.dropWhile (fun ch => !ch.isWhitespace))
    else
      c :: stripUrlsFuel fuel rest

/-- `text.replace(/https?:\/\/\S+/g, '')`. -/
def stripUrls (l : List Char) : List Char := stripUrlsFuel l.length l

/-- JS `String.prototype.trim()`. -/
def trimList (l : List Char) : List Char :=
  ((l.dropWhile Char.isWhitespace).reverse.dropWhile Char.isWhitespace).reverse

/-- Head of the list is a word character. -/
def headIsWordChar : List Char → Bool
  | c :: _ => isWordCharJS c
  | [] => false

/-- Fuel-driven worker for `countHashtags`. -/
def countHashtagsFuel : Nat → List Char → Nat
  | 0, _ => 0
  | _, [] => 0
  | fuel + 1, c :: rest =>
    if c == '#' && headIsWordChar rest then
      -- `#\w+` greedy: the match covers the maximal word-character run, and
      -- the global scan resumes after it.
      1 + countHashtagsFuel fuel (rest.dropWhile isWordCharJS)
    else
      countHashtagsFuel fuel rest

/-- `(text.match(/#\w+/g) || []).length`. -/
def countHashtags (l : List Char) : Nat := countHashtagsFuel l.length l

/-- `\b` holds before the current position given the preceding character
(`none` = start of string). -/
def boundaryBefore : Option Char → Bool
  | none => true
  | some c => !isWordCharJS c

/-- `\b` holds after the first `n` characters of `l`. -/
def boundaryAfterAt (l : List Char) (n : Nat) : Bool :=
  match l.drop n with
  | [] => true
  | c :: _ => !isWordCharJS c

/-- Scan for an occurrence of word `w` delimited by `\b` on both sides;
`prev` is the character before the current scan position. -/
def hasWordFrom (w : List Char) (prev : Option Char) : List Char → Bool
  | [] => false
  | c :: rest =>
    (boundaryBefore prev && List.isPrefixOf w (c :: rest) &&
      boundaryAfterAt (c :: rest) w.length) ||
    hasWordFrom w (some c) rest

/-- `/\b(giveaway|airdrop|whitelist|presale|free money)\b/i.test(text)`:
case--insensitivity is modelled by lowercasing the text (ASCII alternatives,
and `\w`-membership is invariant under ASCII case change). -/
def hasSpamWord (t : List Char) : Bool :=
  let low := t.map Char.toLower
  ["giveaway", "airdrop", "whitelist", "presale", "free money"].any
    (fun w => hasWordFrom w.toList none low)

/-- `needle` occurs as a contiguous sublist of `hay`. -/
def containsList (needle : List Char) (hay : List Char) : Bool :=
  match hay with
  | [] => needle.isEmpty
  | _ :: rest => List.isPrefixOf needle hay || containsList needle rest

/-- The rocket-emoji spam pattern.  The source regex has no `u` flag, so its
`{3,}` quantifier binds the emoji's trailing UTF-16 surrogate code unit: a
match would need an unpaired low surrogate repeated three times, which no
well-formed string — in particular no value this model can represent —
contains.  The pattern therefore matches no modelled text. -/
def hasRocketSpam (t : List Char) : Bool :=
  match t with
  | _ => false

/-- JS line terminators, which `.` does not match. -/
def isLineTerm (c : Char) : Bool :=
  c == '\n' || c == '\r' || c == ' ' || c == ' '

/-- Split on line terminators (accumulator-style). -/
def splitLinesAux (acc : List Char) : List Char → List (List Char)
  | [] => [acc.reverse]
  | c :: rest =>
    if isLineTerm c then acc.reverse :: splitLinesAux [] rest
    else splitLinesAux (c :: acc) rest

/-- Suffix of `t` after the first occurrence of `needle`, or `none`. -/
def afterFirst (needle : List Char) : List Char → Option (List Char)
  | [] => if needle.isEmpty then some [] else none
  | c :: rest =>
    if List.isPrefixOf needle (c :: rest) then some ((c :: rest).drop needle.length)
    else afterFirst needle rest

/-- The words of `ws` occur in order, without overlap, inside `t`. -/
def containsInOrder : List (List Char) → List Char → Bool
  | [], _ => true
  | w :: rest, t =>
    match afterFirst w t with
    | some t' => containsInOrder rest t'
    | none => false

/-- `/follow.*retweet.*like/i.test(text)`: since `.` excludes line
terminators and the three literals contain none, a match exists exactly when
some line contains the three words in order. -/
def hasEngagementBait (t : List Char) : Bool :=
  let low := t.map Char.toLower
  (splitLinesAux [] low).any
    (fun line => containsInOrder ["follow".toList, "retweet".toList, "like".toList] line)

/-- `/DM me for/i.test(text)`. -/
def hasDmSpam (t : List Char) : Bool :=
  containsList "dm me for".toList (t.map Char.toLower)

/-- `String.prototype.toLowerCase()` on ASCII content (character-wise
lowering; stated over the data list so that concrete evaluation reduces in
the kernel). -/
def lowerStr (s : String) : String := ⟨s.data.map Char.toLower⟩

/-- `String.prototype.startsWith(pre)` (stated over the data lists so that
concrete evaluation reduces in the kernel). -/
def startsWithStr (pre s : String) : Bool := List.isPrefixOf pre.data s.data

/-! ## Tweets and the quality filter -/

/-- `Tweet` (src/services/twitter.ts).  `createdAt` holds the instant the
tweet date string denotes, in ms; `none` models an absent/empty date. -/
structure Tweet where
  id : String
  text : String
  author : String
  url : String
  createdAt : Option Nat
deriving Repr, DecidableEq

/-- `SearchTweet` (src/services/twitter.ts): a tweet with the author
follower count inline. -/
structure SearchTweet where
  id : String
  text : String
  author : String
  url : String
  createdAt : Option Nat
  authorFollowers : Int
  sourceQuery : String
  isReply : Bool
deriving Repr, DecidableEq

/-- `passesTweetQualityFilter` (src/index.ts).  `now` is the value of
`Date.now()` at the moment the filter runs: the staleness check reads the
clock, so the clock is an explicit input of the embedding. -/
def passesTweetQualityFilter (now : Nat) (tweet : SearchTweet) : Bool :=
  let text := tweet.text.data
  -- Skip replies
  if tweet.isReply then false
  -- Skip very short tweets (< 30 chars)
  else if text.length < 30 then false
  else
    -- Skip tweets that are mostly links/URLs with little text
    let textWithoutUrls := trimList (stripUrls text)
    if textWithoutUrls.length < 20 then false
    -- Skip hashtag spam (more than 3 hashtags)
    else if countHashtags text > 3 then false
    -- Skip promotional/spam patterns
    else if hasSpamWord text || hasRocketSpam text || hasEngagementBait text ||
        hasDmSpam text then false
    else
      -- Skip tweets older than 24 hours
      match tweet.createdAt with
      | some created => if now - created > 24 * 60 * 60 * 1000 then false else true
      | none => true

/-! ## A model of the dynamically-typed API responses

The parsers in src/services/twitter.ts navigate untyped JSON with optional
chaining (`a?.b`), truthiness-based fallback (`x || y`) and nullish
coalescing (`x ?? y`).  We model the values as a JSON tree in which `null`
stands for both JS `null` and `undefined`, and tweet dates are carried as
numeric millisecond timestamps.
-/

inductive Json where
  | null
  | str (s : String)
  | num (n : Int)
  | boolean (b : Bool)
  | arr (items : List Json)
  | obj (fields : List (String × Json))

/-- Field lookup in an object field list. -/
def jsonField (k : String) : List (String × Json) → Json
  | [] => .null
  | (k', v) :: rest => if k' == k then v else jsonField k rest

/-- `j?.k` — optional member access: `undefined` on `null` and on non-objects
(a primitive has none of the fields the parsers read). -/
def Json.get (j : Json) (k : String) : Json :=
  match j with
  | .obj fs => jsonField k fs
  | _ => .null

/-- JS truthiness. -/
def Json.truthy : Json → Bool
  | .null => false
  | .str s => s ≠ ""
  | .num n => n ≠ 0
  | .boolean b => b
  | .arr _ => true
  | .obj _ => true

/-- `a || b`. -/
def Json.orElse (a b : Json) : Json := if a.truthy then a else b

/-- `a ?? b`. -/
def Json.nullishOr (a b : Json) : Json :=
  match a with
  | .null => b
  | _ => a

/-- Template-literal/string coercion for the primitive values the parsers
interpolate (ids and screen names are strings or numbers in practice). -/
def Json.toDisplayString : Json → String
  | .str s => s
  | .num n => toString n
  | .boolean b => if b then "true" else "false"
  | .null => "null"
  | .arr _ => ""
  | .obj _ => "[object Object]"

/-- First-occurrence `String.prototype.replace` with a literal pattern, on
character lists. -/
def replaceFirstList (needle repl : List Char) : List Char → List Char
  | [] => []
  | c :: rest =>
    if List.isPrefixOf needle (c :: rest) then repl ++ (c :: rest).drop needle.length
    else c :: replaceFirstList needle repl rest

/-- `s.replace(needle, repl)` for a literal first-occurrence pattern. -/
def replaceFirst (s needle repl : String) : String :=
  ⟨replaceFirstList needle.data repl.data s.data⟩

/-- `entry?.entryId?.replace('tweet-', '')` under the surrounding
`try/catch`: calling `.replace` on a truthy non-string throws, which the
parser catches and turns into `none`; we surface the throw as `.error`. -/
def entryIdReplaced (entryIdField : Json) : Except Unit Json :=
  match entryIdField with
  | .null => .ok .null
  | .str s => .ok (.str (replaceFirst s "tweet-" ""))
  | _ => .error ()

/-- A four-link `||` id fallback chain ending in
`entry?.entryId?.replace('tweet-', '')`: `||` short-circuits, so the
`.replace` call — the only link that can throw — is reached only when the
first three links are falsy; when every link is falsy the chain yields the
last (falsy) value, exactly as `||` does. -/
def idFallback4 (a b c entryIdField : Json) : Except Unit Json :=
  if a.truthy then .ok a
  else if b.truthy then .ok b
  else if c.truthy then .ok c
  else entryIdReplaced entryIdField

/-- The community parser's three-link id chain (no `sortIndex` link). -/
def idFallback3 (a b entryIdField : Json) : Except Unit Json :=
  if a.truthy then .ok a
  else if b.truthy then .ok b
  else entryIdReplaced entryIdField

/-! ## The tweet-entry parsers (src/services/twitter.ts) -/

/-- Millisecond timestamp denoted by a (modelled) date field; non-numeric
date values are not produced by the model. -/
def Json.msValue : Json → Option Nat
  | .num n => some n.toNat
  | _ => none

/-- `legacy?.created_at || new Date().toISOString()` — the fallback is the
current instant, so the clock `now` is an input. -/
def createdAtOf (legacy : Json) (now : Nat) : Option Nat :=
  let cJ := legacy.get "created_at"
  if cJ.truthy then cJ.msValue else some now

/-- `parseTweetEntry` (src/services/twitter.ts): tolerant parser for one
timeline entry of `/user-tweets`. -/
def parseTweetEntry (entry : Json) (fallbackAuthor : String) (now : Nat) : Option Tweet :=
  let tweetResult :=
    ((((entry.get "content").get "itemContent").get "tweet_results").get "result").orElse
    (((((entry.get "content").get "content").get "tweetResult").get "result").orElse
    ((entry.get "tweet").orElse entry))
  let legacy := (tweetResult.get "legacy").orElse tweetResult
  let core := ((((tweetResult.get "core").get "user_results").get "result").get "legacy")
  match idFallback4 (legacy.get "id_str") (tweetResult.get "rest_id")
      (entry.get "sortIndex") (entry.get "entryId") with
  | .error _ => none
  | .ok idJ =>
    let textJ := ((legacy.get "full_text").orElse (legacy.get "text")).orElse
      (tweetResult.get "text")
    if !idJ.truthy || !textJ.truthy then none
    else
      match textJ with
      | .str text =>
        -- Skip retweets — we only want original tweets
        if startsWithStr "RT @" text then none
        else
          let authorJ := (core.get "screen_name").orElse (legacy.get "screen_name")
          let author := if authorJ.truthy then authorJ.toDisplayString else fallbackAuthor
          some { id := idJ.toDisplayString, text := text, author := author,
                 url := "https://x.com/" ++ author ++ "/status/" ++ idJ.toDisplayString,
                 createdAt := createdAtOf legacy now }
      | _ => none  -- `.startsWith` on a truthy non-string throws; caught → null

/-- `parseSearchTweetEntry` (src/services/twitter.ts): tolerant parser for
one `/search-v3` entry, carrying the author follower count. -/
def parseSearchTweetEntry (entry : Json) (sourceQuery : String) (now : Nat) :
    Option SearchTweet :=
  let tweetResult :=
    (((((entry.get "content").get "content").get "tweet_results").get "result").orElse
    (((((entry.get "content").get "itemContent").get "tweet_results").get "result").orElse
    ((entry.get "tweet").orElse entry)))
  -- `TweetWithVisibilityResults` wrapper
  let actualTweet := (tweetResult.get "tweet").orElse tweetResult
  let legacy := (actualTweet.get "legacy").orElse actualTweet
  let core := (((actualTweet.get "core").get "user_results").get "result")
  let userCore := core.get "core"
  let userLegacy := core.get "legacy"
  match idFallback4 (legacy.get "id_str") (actualTweet.get "rest_id")
      (entry.get "sortIndex") (entry.get "entry_id") with
  | .error _ => none
  | .ok idJ =>
    let textJ := (((legacy.get "full_text").orElse (legacy.get "text")).orElse
      (actualTweet.get "text")).orElse
      ((((actualTweet.get "note_tweet").get "note_tweet_results").get "result").get "text")
    if !idJ.truthy || !textJ.truthy then none
    else
      match textJ with
      | .str text =>
        -- Skip retweets
        if startsWithStr "RT @" text then none
        else
          let authorJ := ((userCore.get "screen_name").orElse
            (userLegacy.get "screen_name")).orElse (legacy.get "screen_name")
          let author := if authorJ.truthy then authorJ.toDisplayString else "unknown"
          let followersJ := ((core.get "relationship_counts").get "followers").nullishOr
            (((userLegacy.get "followers_count")).nullishOr
            ((((core.get "legacy").get "followers_count")).nullishOr (.num (-1))))
          match followersJ with
          | .num followerCount =>
            if followerCount < 0 then none  -- cannot determine follower count
            else
              let isReply := ((legacy.get "in_reply_to_status_id_str").orElse
                (legacy.get "in_reply_to_screen_name")).truthy
              some { id := idJ.toDisplayString, text := text, author := author,
                     url := "https://x.com/" ++ author ++ "/status/" ++ idJ.toDisplayString,
                     createdAt := createdAtOf legacy now,
                     authorFollowers := followerCount, sourceQuery := sourceQuery,
                     isReply := isReply }
          | _ => none  -- non-numeric follower field: not produced by the model
      | _ => none

/-- `parseCommunityTweetEntry` (src/services/twitter.ts): tolerant parser
for one `/community-tweets` entry. -/
def parseCommunityTweetEntry (entry : Json) (sourceQuery : String) (now : Nat) :
    Option SearchTweet :=
  let tweetResult :=
    (((((entry.get "content").get "itemContent").get "tweet_results").get "result").orElse
    (((((entry.get "content").get "content").get "tweet_results").get "result").orElse
    entry))
  let actualTweet := (tweetResult.get "tweet").orElse tweetResult
  let legacy := (actualTweet.get "legacy").orElse actualTweet
  let core := (((actualTweet.get "core").get "user_results").get "result")
  let userLegacy := core.get "legacy"
  let userCore := core.get "core"
  match idFallback3 (legacy.get "id_str") (actualTweet.get "rest_id")
      (entry.get "entryId") with
  | .error _ => none
  | .ok idJ =>
    let textJ := (((legacy.get "full_text").orElse (legacy.get "text")).orElse
      (actualTweet.get "text")).orElse
      ((((actualTweet.get "note_tweet").get "note_tweet_results").get "result").get "text")
    if !idJ.truthy || !textJ.truthy then none
    else
      match textJ with
      | .str text =>
        if startsWithStr "RT @" text then none
        else
          let authorJ := (userLegacy.get "screen_name").orElse (userCore.get "screen_name")
          let author := if authorJ.truthy then authorJ.toDisplayString else "unknown"
          let followersJ := ((userLegacy.get "followers_count")).nullishOr
            ((((core.get "relationship_counts").get "followers")).nullishOr (.num (-1)))
          match followersJ with
          | .num followerCount =>
            if followerCount < 0 then none
            else
              let isReply := ((legacy.get "in_reply_to_status_id_str").orElse
                (legacy.get "in_reply_to_screen_name")).truthy
              some { id := idJ.toDisplayString, text := text, author := author,
                     url := "https://x.com/" ++ author ++ "/status/" ++ idJ.toDisplayString,
                     createdAt := createdAtOf legacy now,
                     authorFollowers := followerCount, sourceQuery := sourceQuery,
                     isReply := isReply }
          | _ => none
      | _ => none

/-! ## Timestamp text formats

`replied_authors` timestamps are written by SQLite `CURRENT_TIMESTAMP`
(`"YYYY-MM-DD HH:MM:SS"`, UTC) while the feedback selection query compares
them — as TEXT, under SQLite's default BINARY collation — against JS
`toISOString()` parameters (`"YYYY-MM-DDTHH:MM:SS.sssZ"`).  The collation is
byte-wise, so the differing separators matter; the model therefore keeps
these columns as the stored text and embeds both formatters.  The
`pending_replies` timestamps are only ever compared against values of the
same format, where text order agrees with instant order, so they stay
numeric instants.
-/

/-- Decimal digits of `n` (fuel-driven; fuel `≥` the digit count). -/
def decDigitsFuel : Nat → Nat → List Char
  | 0, _ => []
  | _, 0 => []
  | fuel + 1, n => decDigitsFuel fuel (n / 10) ++ [Char.ofNat (48 + n % 10)]

/-- Decimal notation for a natural number. -/
def natDec (n : Nat) : String := if n == 0 then "0" else ⟨decDigitsFuel n n⟩

/-- Two-digit zero-padded field. -/
def pad2 (n : Nat) : String := if n < 10 then "0" ++ natDec n else natDec n

/-- Three-digit zero-padded field (ISO milliseconds). -/
def pad3 (n : Nat) : String :=
  if n < 10 then "00" ++ natDec n else if n < 100 then "0" ++ natDec n else natDec n

/-- Gregorian (year, month, day) of a day count since 1970-01-01 (the
standard civil-from-days computation). -/
def civilFromDays (days : Nat) : Nat × Nat × Nat :=
  let z := days + 719468
  let era := z / 146097
  let doe := z % 146097
  let yoe := (doe - doe / 1460 + doe / 36524 - doe / 146096) / 365
  let y := yoe + era * 400
  let doy := doe - (365 * yoe + yoe / 4 - yoe / 100)
  let mp := (5 * doy + 2) / 153
  let d := doy - (153 * mp + 2) / 5 + 1
  let m := if mp < 10 then mp + 3 else mp - 9
  (if m ≤ 2 then y + 1 else y, m, d)

/-- `"YYYY-MM-DD HH:MM:SS"` for an instant in ms — the TEXT that SQLite
`CURRENT_TIMESTAMP` stores. -/
def sqliteTimestamp (ms : Nat) : String :=
  let s := ms / 1000
  let ymd := civilFromDays (s / 86400)
  natDec ymd.1 ++ "-" ++ pad2 ymd.2.1 ++ "-" ++ pad2 ymd.2.2 ++ " " ++
    pad2 (s / 3600 % 24) ++ ":" ++ pad2 (s / 60 % 60) ++ ":" ++ pad2 (s % 60)

/-- `"YYYY-MM-DDTHH:MM:SS.sssZ"` for an instant in ms — the value of JS
`new Date(ms).toISOString()`. -/
def isoTimestamp (ms : Nat) : String :=
  let s := ms / 1000
  let ymd := civilFromDays (s / 86400)
  natDec ymd.1 ++ "-" ++ pad2 ymd.2.1 ++ "-" ++ pad2 ymd.2.2 ++ "T" ++
    pad2 (s / 3600 % 24) ++ ":" ++ pad2 (s / 60 % 60) ++ ":" ++ pad2 (s % 60) ++
    "." ++ pad3 (ms % 1000) ++ "Z"

/-- SQLite BINARY collation `<` on ASCII text: lexicographic comparison of
the code units (bytes and code points coincide on ASCII). -/
def textLt : List Char → List Char → Bool
  | [], [] => false
  | [], _ :: _ => true
  | _ :: _, [] => false
  | a :: as, b :: bs => decide (a < b) || (a == b && textLt as bs)

/-- `s1 < s2` exactly as SQLite compares TEXT values. -/
def strLt (s1 s2 : String) : Bool := textLt s1.data s2.data

/-! ## The durable store (src/db.ts)

Tables become lists of rows; the UNIQUE constraints of `initTables`
(`pending_replies.tweet_id`, `replied_authors(username, tweet_id)`) become
guards on the insert operations.  The `tracked_accounts` and
`scheduled_posts` tables play no part in the claims and are omitted.
-/

/-- One row of `pending_replies` (schema in `initTables` plus the columns
added by `runMigrations`). -/
structure PendingRow where
  id : Nat
  tweet_id : String
  tweet_text : String
  tweet_author : String
  tweet_url : Option String
  generated_reply : String
  final_reply : Option String
  status : String
  created_at : Nat
  resolved_at : Option Nat
  author_followers : Option Int
  source_query : Option String
  source_type : String
deriving Repr, DecidableEq

/-- One row of `replied_authors`. -/
structure RepliedAuthor where
  id : Nat
  username : String
  tweet_id : String
  reply_id : Option Nat
  follower_count : Option Int
  source_query : Option String
  reply_tweet_id : Option String
  followed_at : Option String
  followed_back : Bool
  got_reply_back : Bool
  reply_likes : Int
  reply_retweets : Int
  reply_views : Int
  reply_replies : Int
  checked_follow_back_at : Option String
  created_at : String
deriving Repr, DecidableEq

/-- One row of `search_queries`. -/
structure SearchQueryRow where
  id : Nat
  query : String
  status : String
  last_searched_at : Option Nat
  hits : Nat
  replies_sent : Nat
  follow_backs : Nat
deriving Repr, DecidableEq

/-- One row of `tracked_communities`. -/
structure CommunityRow where
  id : Nat
  community_id : String
  name : String
  status : String
  last_polled_at : Option Nat
  hits : Nat
  replies_sent : Nat
deriving Repr, DecidableEq

/-- The store state. -/
structure Db where
  pending : List PendingRow
  nextPendingId : Nat
  replied : List RepliedAuthor
  nextRepliedId : Nat
  searchQueries : List SearchQueryRow
  communities : List CommunityRow
deriving Repr, DecidableEq

def emptyDb : Db :=
  { pending := [], nextPendingId := 1, replied := [], nextRepliedId := 1,
    searchQueries := [], communities := [] }

/-- `SELECT id FROM pending_replies WHERE tweet_id = ?` is non-empty. -/
def hasPendingTweetId (db : Db) (tweetId : String) : Bool :=
  db.pending.any (fun r => r.tweet_id == tweetId)

/-- The column values supplied to an
`INSERT INTO pending_replies` statement; columns the statement does not name
take their schema defaults. -/
structure InsertArgs where
  tweet_id : String
  tweet_text : String
  tweet_author : String
  tweet_url : Option String
  generated_reply : String
  status : String
  author_followers : Option Int
  source_query : Option String
  source_type : String
deriving Repr, DecidableEq

/-- Decidable equality for `Except` results (used to evaluate concrete
insert outcomes). -/
instance {α β : Type} [DecidableEq α] [DecidableEq β] : DecidableEq (Except α β) := fun x y =>
  match x, y with
  | .ok a, .ok b =>
    if h : a = b then isTrue (by rw [h]) else isFalse (fun hc => h (Except.ok.inj hc))
  | .error a, .error b =>
    if h : a = b then isTrue (by rw [h]) else isFalse (fun hc => h (Except.error.inj hc))
  | .ok _, .error _ => isFalse (fun hc => Except.noConfusion hc)
  | .error _, .ok _ => isFalse (fun hc => Except.noConfusion hc)

/-- Plain `INSERT INTO pending_replies …`: better-sqlite3 throws a
`SqliteError` when `tweet_id` is already present (the UNIQUE constraint), so
the model returns `.error` in that case; no row is written. -/
def insertPendingReply (db : Db) (a : InsertArgs) (now : Nat) : Except String Db :=
  if hasPendingTweetId db a.tweet_id then
    .error "UNIQUE constraint failed: pending_replies.tweet_id"
  else
    .ok { db with
      pending := db.pending ++ [{
        id := db.nextPendingId, tweet_id := a.tweet_id, tweet_text := a.tweet_text,
        tweet_author := a.tweet_author, tweet_url := a.tweet_url,
        generated_reply := a.generated_reply, final_reply := none,
        status := a.status, created_at := now, resolved_at := none,
        author_followers := a.author_followers, source_query := a.source_query,
        source_type := a.source_type }],
      nextPendingId := db.nextPendingId + 1 }

/-- JS truthiness of a nullable string column. -/
def truthyOpt : Option String → Bool
  | some s => s ≠ ""
  | none => false

/-! ## Operator-visible messages

Message text formatting (`formatApprovalMessage`, digest bodies, status
reports) is presentation; the model keeps the identity of each message sent
to the operator channel as a tag.
-/

inductive Msg where
  | approval (author : String) (pendingId : Nat)
  | digest (ids : List Nat)
  | alreadyPending (id : Nat)
  | fetchFailed
  | noPendingToRegen
  | regenerated (id : Nat)
  | regenFailed (id : Nat)
  | authAlert
  | rateLimitAlert
  | postErrorAlert
  | approveSummary (posted : Nat) (total : Nat) (failed : Nat)
  | rejectSummary (n : Nat)
  | rejectedAll (n : Nat)
  | noPendingToReject
  | notFoundOrResolved (id : Nat)
  | postFailed (id : Nat)
  | customPosted (author : String) (id : Nat)
  | editFailed (id : Nat)
  | noPendingWithId (id : Nat)
deriving Repr, DecidableEq

/-! ## The publisher adapter (`postReply`, src/services/twitter.ts) -/

/-- Outcome of the external `POST /2/tweets` call. -/
inductive PublishOutcome where
  | success (newTweetId : String)
  /-- 2xx response whose body carries no `data.id`. -/
  | noId
  /-- axios error with an HTTP response status. -/
  | httpError (status : Nat)
  /-- axios error without a response (network failure). -/
  | networkError
deriving Repr, DecidableEq

/-- `postReply`: returns the new tweet id on success or `none` on failure,
and classifies failures into operator alerts — auth failure (401/403),
rate limit (429), or a generic post-failure alert.  Exactly one alert is
sent per failing call; no retry happens inside the call. -/
def postReplyModel : PublishOutcome → Option String × List Msg
  | .success newTweetId => (some newTweetId, [])
  | .noId => (none, [])
  | .httpError status =>
    (none, [if status == 401 || status == 403 then Msg.authAlert
            else if status == 429 then Msg.rateLimitAlert
            else Msg.postErrorAlert])
  | .networkError => (none, [Msg.postErrorAlert])

/-! ## Approval state machine (src/services/telegram.ts `setupBotCommands`) -/

/-- `SELECT … FROM pending_replies WHERE id = ? AND status = 'pending'`. -/
def findPendingById (db : Db) (targetId : Nat) : Option PendingRow :=
  db.pending.find? (fun r => r.id == targetId && r.status == "pending")

/-- `SELECT … FROM pending_replies WHERE status = 'pending' ORDER BY
created_at DESC LIMIT 1` (first row with maximal creation time). -/
def latestPending (db : Db) : Option PendingRow :=
  (db.pending.filter (fun r => r.status == "pending")).foldl
    (fun acc r =>
      match acc with
      | none => some r
      | some b => if b.created_at < r.created_at then some r else some b)
    none

/-- `UPDATE pending_replies SET status = ?, (final_reply = ?,)
resolved_at = CURRENT_TIMESTAMP WHERE id = ?`; `setFinal = none` leaves
`final_reply` untouched (the reject statement does not name it). -/
def resolvePending (db : Db) (rowId : Nat) (newStatus : String)
    (setFinal : Option String) (now : Nat) : Db :=
  { db with pending := db.pending.map (fun r =>
      if r.id == rowId then
        { r with status := newStatus,
                 final_reply := match setFinal with
                   | some t => some t
                   | none => r.final_reply,
                 resolved_at := some now }
      else r) }

/-- `logRepliedAuthor`: `INSERT OR IGNORE INTO replied_authors …` — the
UNIQUE(username, tweet_id) constraint makes a duplicate insert a no-op. -/
def logRepliedAuthor (db : Db) (p : PendingRow) (replyTweetId : Option String)
    (now : Nat) : Db :=
  if db.replied.any (fun r => r.username == p.tweet_author && r.tweet_id == p.tweet_id) then
    db
  else
    { db with
      replied := db.replied ++ [{
        id := db.nextRepliedId, username := p.tweet_author, tweet_id := p.tweet_id,
        reply_id := some p.id, follower_count := p.author_followers,
        source_query := p.source_query, reply_tweet_id := replyTweetId,
        followed_at := none, followed_back := false, got_reply_back := false,
        reply_likes := 0, reply_retweets := 0, reply_views := 0, reply_replies := 0,
        checked_follow_back_at := none, created_at := sqliteTimestamp now }],
      nextRepliedId := db.nextRepliedId + 1 }

/-- On publish success the owning source's `replies_sent` counter is
incremented (search query or community, selected by provenance). -/
def bumpRepliesSent (db : Db) (p : PendingRow) : Db :=
  if p.source_type == "search" && truthyOpt p.source_query then
    { db with searchQueries := db.searchQueries.map (fun s =>
        if some s.query == p.source_query then { s with replies_sent := s.replies_sent + 1 }
        else s) }
  else if p.source_type == "community" && truthyOpt p.source_query then
    { db with communities := db.communities.map (fun c =>
        if some c.name == p.source_query then { c with replies_sent := c.replies_sent + 1 }
        else c) }
  else db

/-- Result of one operator command: the new store state, the publish calls
made (reply-to tweet id, text), and the messages sent. -/
structure CmdResult where
  db : Db
  publishCalls : List (String × String)
  messages : List Msg
deriving Repr, DecidableEq

/-- One iteration of the approve loop (`action === '1'` in the multi-id
approval handler): look the id up with the `status = 'pending'` guard,
publish the generated reply once, and only on success mark the row
`posted`, persist the final text, stamp the resolution time, log the
replied author and bump the source counter.  On failure the store is
untouched and the failure is reported. -/
def approveOne (db : Db) (targetId : Nat) (outcome : PublishOutcome) (now : Nat) :
    CmdResult :=
  match findPendingById db targetId with
  | none => { db := db, publishCalls := [], messages := [.notFoundOrResolved targetId] }
  | some pending =>
    let (replyTweetId, alerts) := postReplyModel outcome
    match replyTweetId with
    | some rid =>
      let db1 := resolvePending db pending.id "posted" (some pending.generated_reply) now
      let db2 := logRepliedAuthor db1 pending (some rid) now
      let db3 := bumpRepliesSent db2 pending
      { db := db3, publishCalls := [(pending.tweet_id, pending.generated_reply)],
        messages := alerts }
    | none =>
      { db := db, publishCalls := [(pending.tweet_id, pending.generated_reply)],
        messages := alerts ++ [.postFailed pending.id] }

/-- One iteration of the reject loop (`action === '2'`). -/
def rejectOne (db : Db) (targetId : Nat) (now : Nat) : CmdResult :=
  match findPendingById db targetId with
  | none => { db := db, publishCalls := [], messages := [.notFoundOrResolved targetId] }
  | some pending =>
    { db := resolvePending db pending.id "rejected" none now,
      publishCalls := [], messages := [] }

/-- `"2 all"`: reject every pending row; no publish call is made. -/
def rejectAll (db : Db) (now : Nat) : CmdResult :=
  let allPending := db.pending.filter (fun r => r.status == "pending")
  if allPending.isEmpty then
    { db := db, publishCalls := [], messages := [.noPendingToReject] }
  else
    { db := allPending.foldl (fun d r => resolvePending d r.id "rejected" none now) db,
      publishCalls := [],
      messages := [.rejectedAll allPending.length] }

/-- The `editMatch` handler (`#ID custom text`): look the id up with the
`status = 'pending'` guard, publish the operator-supplied text, and on
success set status `'edited'`, persist the supplied text as the final
reply, stamp the resolution time, log the replied author and bump the
source counter.  `replyText` is the text after the id, trimmed
(`editMatch[2].trim()`). -/
def editCommand (db : Db) (targetId : Nat) (replyText : String)
    (outcome : PublishOutcome) (now : Nat) : CmdResult :=
  match findPendingById db targetId with
  | none => { db := db, publishCalls := [], messages := [.noPendingWithId targetId] }
  | some pending =>
    let (replyTweetId, alerts) := postReplyModel outcome
    match replyTweetId with
    | some rid =>
      let db1 := resolvePending db pending.id "edited" (some replyText) now
      let db2 := logRepliedAuthor db1 pending (some rid) now
      let db3 := bumpRepliesSent db2 pending
      { db := db3, publishCalls := [(pending.tweet_id, replyText)],
        messages := alerts ++ [.customPosted pending.tweet_author pending.id] }
    | none =>
      { db := db, publishCalls := [(pending.tweet_id, replyText)],
        messages := alerts ++ [.editFailed pending.id] }

/-- The `/regen` handler: select the target row (by id, or the latest
pending row), call the generator (`gen` is its outcome; `none` models a
thrown generation error, caught by the handler), and on success run
`UPDATE pending_replies SET generated_reply = ? WHERE id = ?`. -/
def regenCommand (db : Db) (idArg : Option Nat) (gen : Option String) : Db × List Msg :=
  let regenRow := match idArg with
    | some i => findPendingById db i
    | none => latestPending db
  match regenRow with
  | none => (db, [.noPendingToRegen])
  | some row =>
    match gen with
    | none => (db, [.regenFailed row.id])
    | some newReply =>
      ({ db with pending := db.pending.map (fun r =>
          if r.id == row.id then { r with generated_reply := newReply } else r) },
       [.regenerated row.id])

/-! ## Discovery (src/index.ts `pollAccounts`, `pollSearches`; `/fetch`) -/

/-- The `/fetch username` handler, from the point where the latest tweet is
in hand: pre-check the dedup store, generate (`gen = none` models a thrown
generation error — the handler's `try/catch` reports failure), insert with
status `'pending'`, and send the approval message.  A duplicate-key throw
from the insert is caught by the same `try/catch`. -/
def fetchCommand (db : Db) (latest : Tweet) (gen : Option String) (now : Nat) :
    Db × List Msg :=
  if hasPendingTweetId db latest.id then
    (db, [.alreadyPending 0])
  else
    match gen with
    | none => (db, [.fetchFailed])
    | some reply =>
      match insertPendingReply db
        { tweet_id := latest.id, tweet_text := latest.text,
          tweet_author := latest.author, tweet_url := some latest.url,
          generated_reply := reply, status := "pending",
          author_followers := none, source_query := none,
          source_type := "account" } now with
      | .ok db1 => (db1, [.approval latest.author db.nextPendingId])
      | .error _ => (db, [.fetchFailed])

/-- The per-tweet body of `pollAccounts`: skip when the dedup store already
holds the tweet id; otherwise insert with status `'pending'` when generation
succeeded and `'new'` (empty reply) when it threw.  The insert statement is
not inside a `try/catch`, so a duplicate-key throw propagates out of the
poll cycle (`.error`). -/
def pollAccountTweetStep (db : Db) (tweet : Tweet) (gen : Option String) (now : Nat) :
    Except String (Db × List Msg) :=
  if hasPendingTweetId db tweet.id then .ok (db, [])
  else
    let (reply, status) := match gen with
      | some r => (r, "pending")
      | none => ("", "new")
    match insertPendingReply db
      { tweet_id := tweet.id, tweet_text := tweet.text,
        tweet_author := tweet.author, tweet_url := some tweet.url,
        generated_reply := reply, status := status,
        author_followers := none, source_query := none,
        source_type := "account" } now with
    | .ok db1 =>
      .ok (db1, if status == "pending" then [.approval tweet.author db.nextPendingId] else [])
    | .error e => .error e

/-- `MAX_CANDIDATES` (src/index.ts): per-cycle cap on candidates passed to
generation. -/
def MAX_CANDIDATES : Nat := 20

/-- An in-memory `CandidateTweet` (the Telegram label string is
presentation and omitted). -/
structure Candidate where
  tweet : SearchTweet
  sourceQuery : String
  sourceType : String
deriving Repr, DecidableEq

/-- Phase-1 acceptance for one fetched tweet: not already in the dedup
store, not by the operator's own account, and passing the quality filter. -/
def phase1Accepts (db : Db) (now : Nat) (t : SearchTweet) : Bool :=
  !hasPendingTweetId db t.id && !(lowerStr t.author == "kyushithe") &&
  passesTweetQualityFilter now t

/-- Candidates one search query contributes (in fetched order). -/
def queryCandidates (db : Db) (now : Nat) (q : String) (tweets : List SearchTweet) :
    List Candidate :=
  (tweets.filter (phase1Accepts db now)).map
    (fun t => { tweet := t, sourceQuery := q, sourceType := "search" })

/-- Candidates one community contributes (keyed by community name, which is
what `sourceQuery` records for communities). -/
def communityCandidates (db : Db) (now : Nat) (name : String)
    (tweets : List SearchTweet) : List Candidate :=
  (tweets.filter (phase1Accepts db now)).map
    (fun t => { tweet := t, sourceQuery := name, sourceType := "community" })

/-- Phase 1 of `pollSearches`: accumulate candidates across all active
queries and communities, in order, against the store state at cycle start
(phase 1 performs no `pending_replies` writes). -/
def searchPhase1 (db : Db) (now : Nat)
    (queryResults : List (String × List SearchTweet))
    (communityResults : List (String × List SearchTweet)) : List Candidate :=
  (queryResults.flatMap (fun qr => queryCandidates db now qr.1 qr.2)) ++
  (communityResults.flatMap (fun cr => communityCandidates db now cr.1 cr.2))

/-- The candidate list handed to phase 2: `candidates.length = MAX_CANDIDATES`
truncates in place, keeping the first `MAX_CANDIDATES` accumulated
candidates and dropping the rest. -/
def searchCycleCandidates (db : Db) (now : Nat)
    (queryResults : List (String × List SearchTweet))
    (communityResults : List (String × List SearchTweet)) : List Candidate :=
  (searchPhase1 db now queryResults communityResults).take MAX_CANDIDATES

/-- Phase-1 side effects on the source tables: `hits` is incremented once
per accepted candidate and the last-polled stamp is set. -/
def bumpSearchCounters (db : Db) (now : Nat)
    (queryResults : List (String × List SearchTweet))
    (communityResults : List (String × List SearchTweet)) : Db :=
  { db with
    searchQueries := db.searchQueries.map (fun s =>
      match queryResults.find? (fun qr => qr.1 == s.query) with
      | some qr => { s with hits := s.hits + (qr.2.filter (phase1Accepts db now)).length,
                            last_searched_at := some now }
      | none => s),
    communities := db.communities.map (fun c =>
      match communityResults.find? (fun cr => cr.1 == c.name) with
      | some cr => { c with hits := c.hits + (cr.2.filter (phase1Accepts db now)).length,
                            last_polled_at := some now }
      | none => c) }

/-- The `INSERT INTO pending_replies … VALUES (…, 'pending', …)` arguments
phase 2 uses for one candidate. -/
def mkSearchInsert (c : Candidate) (reply : String) : InsertArgs :=
  { tweet_id := c.tweet.id, tweet_text := c.tweet.text,
    tweet_author := c.tweet.author, tweet_url := some c.tweet.url,
    generated_reply := reply, status := "pending",
    author_followers := some c.tweet.authorFollowers,
    source_query := some c.sourceQuery, source_type := c.sourceType }

/-- Phase 2 of `pollSearches`: for each candidate whose generation settled
successfully (`some reply`; `none` is a rejected batch promise, skipped),
insert the pending row.  The insert is not inside a `try/catch`: a
duplicate-key throw aborts the cycle, leaving the rows inserted so far
(`some error` in the result). -/
def searchPhase2 (db : Db) (now : Nat) :
    List (Candidate × Option String) → Db × Option String
  | [] => (db, none)
  | (c, gen) :: rest =>
    match gen with
    | none => searchPhase2 db now rest
    | some reply =>
      match insertPendingReply db (mkSearchInsert c reply) now with
      | .ok db1 => searchPhase2 db1 now rest
      | .error e => (db, some e)

/-- A whole `pollSearches` cycle over already-fetched per-source results,
with the generator outcome supplied per candidate: phase 1 accumulates and
caps candidates and bumps source counters, phase 2 generates and inserts.
The second component is the error that aborted phase 2, if any. -/
def searchCycle (db : Db) (now : Nat)
    (queryResults : List (String × List SearchTweet))
    (communityResults : List (String × List SearchTweet))
    (gen : Candidate → Option String) : Db × Option String :=
  let candidates := searchCycleCandidates db now queryResults communityResults
  let db1 := bumpSearchCounters db now queryResults communityResults
  searchPhase2 db1 now (candidates.map (fun c => (c, gen c)))

/-! ## Feedback loop (src/index.ts `checkFeedback`) -/

/-- `TweetEngagement` (src/services/twitter.ts). -/
structure TweetEngagement where
  likes : Int
  retweets : Int
  replies : Int
  views : Int
  bookmarks : Int
deriving Repr, DecidableEq

/-- Outcome of checking one replied author against the external API
(`fetchTweetEngagement`); `error` models a thrown call. -/
inductive FeedbackFetch where
  | ok (engagement : Option TweetEngagement) (gotReplyBack : Bool)
  | error
deriving Repr, DecidableEq

/-- The `WHERE` clause of the feedback selection query, with the
comparisons performed exactly as SQLite performs them — stored TEXT stamps
against the `toISOString()` parameters under BINARY collation: created
after the 7-day-window parameter, checked before the 4-hour-cutoff
parameter (or never), and holding a published reply id.  `now` is the
`Date.now()` instant at which `checkFeedback` builds the parameters. -/
def feedbackEligible (now : Nat) (r : RepliedAuthor) : Bool :=
  strLt (isoTimestamp (now - 7 * 24 * 60 * 60 * 1000)) r.created_at &&
  (match r.checked_follow_back_at with
   | none => true
   | some t => strLt t (isoTimestamp (now - 4 * 60 * 60 * 1000))) &&
  r.reply_tweet_id.isSome

/-- The per-author body of `checkFeedback`.  On a successful fetch the row
is rewritten with the fresh signals (missing engagement fields keep the
values read at selection time) and `checked_follow_back_at` is stamped, and
a first-time follow-back bumps the owning query's counter.  On a thrown
fetch the `catch` block logs and still stamps `checked_follow_back_at`. -/
def checkFeedbackAuthor (db : Db) (kamFollowers : List String) (a : RepliedAuthor)
    (fetch : FeedbackFetch) (now : Nat) : Db :=
  match fetch with
  | .error =>
    { db with replied := db.replied.map (fun r =>
        if r.id == a.id then { r with checked_follow_back_at := some (sqliteTimestamp now) }
        else r) }
  | .ok engagement gotReplyBack =>
    let followedBack := kamFollowers.contains (lowerStr a.username)
    let db1 := { db with replied := db.replied.map (fun r =>
      if r.id == a.id then
        { r with followed_back := followedBack, got_reply_back := gotReplyBack,
                 reply_likes := (engagement.map (·.likes)).getD a.reply_likes,
                 reply_retweets := (engagement.map (·.retweets)).getD a.reply_retweets,
                 reply_views := (engagement.map (·.views)).getD a.reply_views,
                 reply_replies := (engagement.map (·.replies)).getD a.reply_replies,
                 checked_follow_back_at := some (sqliteTimestamp now) }
      else r) }
    if followedBack && !a.followed_back && truthyOpt a.source_query then
      { db1 with searchQueries := db1.searchQueries.map (fun s =>
          if some s.query == a.source_query then { s with follow_backs := s.follow_backs + 1 }
          else s) }
    else db1

/-! ## The global store-transition relation

Every code path of the bot that writes the `pending_replies` table does so
through exactly the statements modelled above.  `BotOp` enumerates those
paths (with the external-call outcomes they observed as data) and `applyOp`
is the resulting store transition; a store is `Reachable` when some finite
history of operations produces it from the empty store.
-/

inductive BotOp where
  | accountTweet (tweet : Tweet) (gen : Option String) (now : Nat)
  | fetch (latest : Tweet) (gen : Option String) (now : Nat)
  | search (now : Nat) (queryResults : List (String × List SearchTweet))
      (communityResults : List (String × List SearchTweet))
      (gen : Candidate → Option String)
  | approve (targetId : Nat) (outcome : PublishOutcome) (now : Nat)
  | reject (targetId : Nat) (now : Nat)
  | rejectAllOp (now : Nat)
  | edit (targetId : Nat) (replyText : String) (outcome : PublishOutcome) (now : Nat)
  | regen (idArg : Option Nat) (gen : Option String)
  | feedback (kamFollowers : List String) (a : RepliedAuthor) (fetch : FeedbackFetch)
      (now : Nat)

/-- The store after one operation.  When `pollAccountTweetStep` throws, the
failing statement wrote nothing and the poll cycle aborts, so the store is
unchanged by that statement. -/
def applyOp (db : Db) : BotOp → Db
  | .accountTweet t gen now =>
    match pollAccountTweetStep db t gen now with
    | .ok (db', _) => db'
    | .error _ => db
  | .fetch t gen now => (fetchCommand db t gen now).1
  | .search now qr cr gen => (searchCycle db now qr cr gen).1
  | .approve i o now => (approveOne db i o now).db
  | .reject i now => (rejectOne db i now).db
  | .rejectAllOp now => (rejectAll db now).db
  | .edit i text o now => (editCommand db i text o now).db
  | .regen idArg gen => (regenCommand db idArg gen).1
  | .feedback kam a f now => checkFeedbackAuthor db kam a f now

/-- A store produced by some history of bot operations from the empty
store. -/
def Reachable (db : Db) : Prop := ∃ ops : List BotOp, db = ops.foldl applyOp emptyDb

/-- The dedup invariant: the `tweet_id` column of `pending_replies` has no
duplicates. -/
def PendingIdsNodup (db : Db) : Prop :=
  (db.pending.map (fun r => r.tweet_id)).Nodup

/-! ## Frame relation for regeneration -/

/-- All columns of a `pending_replies` row except `generated_reply` agree. -/
def regenFrame (r r2 : PendingRow) : Prop :=
  r2.id = r.id ∧ r2.tweet_id = r.tweet_id ∧ r2.tweet_text = r.tweet_text ∧
  r2.tweet_author = r.tweet_author ∧ r2.tweet_url = r.tweet_url ∧
  r2.final_reply = r.final_reply ∧ r2.status = r.status ∧
  r2.created_at = r.created_at ∧ r2.resolved_at = r.resolved_at ∧
  r2.author_followers = r.author_followers ∧ r2.source_query = r.source_query ∧
  r2.source_type = r.source_type

/-! ## Concrete test data for witnesses and counterexamples -/

/-- A discovered tweet with source post id `"12345"` (the id used by the
dedup scenarios in the spec). -/
def sampleTweet : Tweet :=
  { id := "12345", text := "just shipped a new feature for my side project",
    author := "bob", url := "https://x.com/bob/status/12345", createdAt := some 0 }

/-- The 2-character post from the spec scenario. -/
def okTweet : SearchTweet :=
  { id := "2001", text := "ok", author := "dana", url := "https://x.com/dana/status/2001",
    createdAt := some 0, authorFollowers := 100, sourceQuery := "build in public",
    isReply := false }

/-- A candidate that passes every structural check of the quality filter. -/
def qualityTweet : SearchTweet :=
  { id := "1001", text := "spent the weekend rewriting our onboarding flow from scratch",
    author := "alice", url := "https://x.com/alice/status/1001", createdAt := some 0,
    authorFollowers := 150, sourceQuery := "build in public", isReply := false }

/-- Same text, reply flag and timestamp as `qualityTweet`, but different id,
author, url and follower count. -/
def qualityTweetB : SearchTweet :=
  { id := "1002", text := "spent the weekend rewriting our onboarding flow from scratch",
    author := "someone_else", url := "https://x.com/someone_else/status/1002",
    createdAt := some 0, authorFollowers := 900, sourceQuery := "startups",
    isReply := false }

/-- A filter-passing search candidate with source post id `"12345"`. -/
def sampleSearchTweet : SearchTweet :=
  { id := "12345", text := "just shipped the first version of my indie project today",
    author := "alice", url := "https://x.com/alice/status/12345", createdAt := some 0,
    authorFollowers := 150, sourceQuery := "build in public", isReply := false }

/-- A pending row awaiting a decision. -/
def pendingRow42 : PendingRow :=
  { id := 42, tweet_id := "12345",
    tweet_text := "just shipped a new feature for my side project",
    tweet_author := "bob", tweet_url := some "https://x.com/bob/status/12345",
    generated_reply := "nice work", final_reply := none, status := "pending",
    created_at := 10, resolved_at := none, author_followers := some 120,
    source_query := some "build in public", source_type := "search" }

/-- A store holding exactly the pending row above. -/
def dbWith42 : Db := { emptyDb with pending := [pendingRow42], nextPendingId := 43 }

/-- A history in which the same post id is surfaced by the on-demand fetch
and by account polling. -/
def sampleOps : List BotOp :=
  [.fetch sampleTweet (some "congrats on the launch") 0,
   .accountTweet sampleTweet (some "nice work") 5]

/-- A `replied_authors` row eligible for a feedback check. -/
def repliedCarol : RepliedAuthor :=
  { id := 7, username := "carol", tweet_id := "555", reply_id := some 42,
    follower_count := some 100, source_query := some "build in public",
    reply_tweet_id := some "777", followed_at := none, followed_back := false,
    got_reply_back := false, reply_likes := 0, reply_retweets := 0, reply_views := 0,
    reply_replies := 0, checked_follow_back_at := none,
    created_at := "2026-01-10 09:30:00" }

/-- A store holding exactly the replied-author row above. -/
def dbWithCarol : Db := { emptyDb with replied := [repliedCarol], nextRepliedId := 8 }

/-- A flat `/user-tweets` timeline entry (the `entry?.tweet || entry`
fallback shape). -/
def entryTimelineA : Json :=
  .obj [("legacy", .obj [("id_str", .str "111"),
                         ("full_text", .str "hello from the timeline")])]

/-- The tweet `parseTweetEntry` extracts from `entryTimelineA`. -/
def tweetA : Tweet :=
  { id := "111", text := "hello from the timeline", author := "sam",
    url := "https://x.com/sam/status/111", createdAt := some 7 }

/-- A nested `/search-v3` entry with follower data under
`core.relationship_counts`. -/
def entrySearchB : Json :=
  .obj [("content", .obj [("content", .obj [("tweet_results", .obj [("result",
    .obj [("legacy", .obj [("id_str", .str "222"),
                           ("full_text", .str "a fine original tweet")]),
          ("core", .obj [("user_results", .obj [("result",
            .obj [("core", .obj [("screen_name", .str "alice")]),
                  ("relationship_counts", .obj [("followers", .num 120)])])])])])])])])]

/-- The tweet `parseSearchTweetEntry` extracts from `entrySearchB`. -/
def searchTweetB : SearchTweet :=
  { id := "222", text := "a fine original tweet", author := "alice",
    url := "https://x.com/alice/status/222", createdAt := some 7,
    authorFollowers := 120, sourceQuery := "build in public", isReply := false }

/-- A `/community-tweets` entry with user data under `core.legacy`. -/
def entryCommunityC : Json :=
  .obj [("content", .obj [("itemContent", .obj [("tweet_results", .obj [("result",
    .obj [("legacy", .obj [("id_str", .str "333"),
                           ("full_text", .str "news from the community")]),
          ("core", .obj [("user_results", .obj [("result",
            .obj [("legacy", .obj [("screen_name", .str "carol"),
                                   ("followers_count", .num 80)])])])])])])])])]

/-- The tweet `parseCommunityTweetEntry` extracts from `entryCommunityC`. -/
def communityTweetC : SearchTweet :=
  { id := "333", text := "news from the community", author := "carol",
    url := "https://x.com/carol/status/333", createdAt := some 7,
    authorFollowers := 80, sourceQuery := "community:99", isReply := false }

theorem nodup_map_update (l : List PendingRow) (f : PendingRow → PendingRow)
    (hf : ∀ r, (f r).tweet_id = r.tweet_id)
    (h : (l.map (fun r => r.tweet_id)).Nodup) :
    ((l.map f).map (fun r => r.tweet_id)).Nodup := by
  simpa [List.map_map, Function.comp_def, hf] using h

theorem logRepliedAuthor_pending (db : Db) (p : PendingRow) (rid : Option String)
    (now : Nat) : (logRepliedAuthor db p rid now).pending = db.pending := by
  unfold logRepliedAuthor; split <;> rfl

theorem bumpRepliesSent_pending (db : Db) (p : PendingRow) :
    (bumpRepliesSent db p).pending = db.pending := by
  unfold bumpRepliesSent
  split
  · rfl
  · split <;> rfl

theorem checkFeedbackAuthor_pending (db : Db) (kam : List String) (a : RepliedAuthor)
    (f : FeedbackFetch) (now : Nat) :
    (checkFeedbackAuthor db kam a f now).pending = db.pending := by
  unfold checkFeedbackAuthor
  cases f with
  | error => rfl
  | ok e g => dsimp only; split <;> rfl

theorem resolvePending_tweetId (rowId : Nat) (newStatus : String)
    (setFinal : Option String) (now : Nat) (r : PendingRow) :
    ((fun r => if r.id == rowId then
        { r with status := newStatus,
                 final_reply := match setFinal with
                   | some t => some t
                   | none => r.final_reply,
                 resolved_at := some now }
      else r) r).tweet_id = r.tweet_id := by
  dsimp only; split <;> rfl

theorem pendingIdsNodup_resolve (db : Db) (rowId : Nat) (newStatus : String)
    (setFinal : Option String) (now : Nat) (h : PendingIdsNodup db) :
    PendingIdsNodup (resolvePending db rowId newStatus setFinal now) :=
  nodup_map_update _ _ (resolvePending_tweetId rowId newStatus setFinal now) h

theorem pendingIdsNodup_insert (db db' : Db) (a : InsertArgs) (now : Nat)
    (hins : insertPendingReply db a now = .ok db') (h : PendingIdsNodup db) :
    PendingIdsNodup db' := by
  unfold insertPendingReply at hins
  split at hins
  · exact absurd hins (by simp)
  · rename_i hdup
    injection hins with hins
    subst hins
    unfold PendingIdsNodup at h ⊢
    simp only [List.map_append, List.map_cons, List.map_nil]
    rw [List.nodup_append]
    refine ⟨h, List.nodup_singleton _, ?_⟩
    intro x hx hx'
    simp only [List.mem_singleton] at hx'
    subst hx'
    obtain ⟨r, hr, hrx⟩ := List.mem_map.mp hx
    exact hdup (by
      simp only [hasPendingTweetId, List.any_eq_true]
      exact ⟨r, hr, by simp [hrx]⟩)

theorem pendingIdsNodup_phase2 (now : Nat) :
    ∀ (items : List (Candidate × Option String)) (db : Db), PendingIdsNodup db →
      PendingIdsNodup (searchPhase2 db now items).1
  | [], _, h => h
  | (c, gen) :: rest, db, h => by
    unfold searchPhase2
    cases gen with
    | none => exact pendingIdsNodup_phase2 now rest db h
    | some reply =>
      dsimp only
      cases hins : insertPendingReply db (mkSearchInsert c reply) now with
      | ok db1 =>
        exact pendingIdsNodup_phase2 now rest db1
          (pendingIdsNodup_insert db db1 _ now hins h)
      | error e => exact h

theorem pendingIdsNodup_rejectFold (now : Nat) :
    ∀ (rows : List PendingRow) (db : Db), PendingIdsNodup db →
      PendingIdsNodup
        (rows.foldl (fun d r => resolvePending d r.id "rejected" none now) db)
  | [], _, h => h
  | r :: rest, db, h =>
    pendingIdsNodup_rejectFold now rest _ (pendingIdsNodup_resolve db r.id _ _ now h)

/-- Every bot operation preserves the dedup invariant: the only way any code
path adds a `pending_replies` row is the guarded insert. -/
theorem applyOp_preserves (db : Db) (op : BotOp) (h : PendingIdsNodup db) :
    PendingIdsNodup (applyOp db op) := by
  cases op with
  | accountTweet t gen now =>
    dsimp only [applyOp]
    cases hstep : pollAccountTweetStep db t gen now with
    | error e => exact h
    | ok pair =>
      obtain ⟨db', msgs⟩ := pair
      dsimp only
      unfold pollAccountTweetStep at hstep
      split at hstep
      · injection hstep with hstep
        injection hstep with h1 h2
        rw [← h1]; exact h
      · dsimp only at hstep
        split at hstep
        · rename_i db1 hins
          injection hstep with hstep
          injection hstep with h1 h2
          rw [← h1]
          exact pendingIdsNodup_insert db db1 _ now hins h
        · exact absurd hstep (by simp)
  | fetch t gen now =>
    dsimp only [applyOp]
    unfold fetchCommand
    split
    · exact h
    · cases gen with
      | none => exact h
      | some reply =>
        dsimp only
        split
        · rename_i db1 hins
          exact pendingIdsNodup_insert db db1 _ now hins h
        · exact h
  | search now qr cr gen =>
    dsimp only [applyOp]
    unfold searchCycle
    exact pendingIdsNodup_phase2 now _ _ h
  | approve i o now =>
    dsimp only [applyOp]
    unfold approveOne
    split
    · exact h
    · rename_i p _
      dsimp only
      split
      · unfold PendingIdsNodup
        rw [bumpRepliesSent_pending, logRepliedAuthor_pending]
        exact pendingIdsNodup_resolve db p.id _ _ now h
      · exact h
  | reject i now =>
    dsimp only [applyOp]
    unfold rejectOne
    split
    · exact h
    · rename_i p _
      exact pendingIdsNodup_resolve db p.id _ _ now h
  | rejectAllOp now =>
    dsimp only [applyOp]
    unfold rejectAll
    dsimp only
    split
    · exact h
    · exact pendingIdsNodup_rejectFold now _ db h
  | edit i text o now =>
    dsimp only [applyOp]
    unfold editCommand
    split
    · exact h
    · rename_i p _
      dsimp only
      split
      · unfold PendingIdsNodup
        rw [bumpRepliesSent_pending, logRepliedAuthor_pending]
        exact pendingIdsNodup_resolve db p.id _ _ now h
      · exact h
  | regen idArg gen =>
    dsimp only [applyOp]
    unfold regenCommand
    dsimp only
    split
    · exact h
    · cases gen with
      | none => exact h
      | some newReply =>
        exact nodup_map_update _ _ (fun r => by split <;> rfl) h
  | feedback kam a f now =>
    dsimp only [applyOp]
    unfold PendingIdsNodup
    rw [checkFeedbackAuthor_pending]
    exact h

theorem pendingIdsNodup_foldl :
    ∀ (ops : List BotOp) (db : Db), PendingIdsNodup db →
      PendingIdsNodup (ops.foldl applyOp db)
  | [], _, h => h
  | op :: rest, db, h =>
    pendingIdsNodup_foldl rest (applyOp db op) (applyOp_preserves db op h)

theorem pendingIdsNodup_reachable (db : Db) (h : Reachable db) : PendingIdsNodup db := by
  obtain ⟨ops, rfl⟩ := h
  exact pendingIdsNodup_foldl ops emptyDb (by simp [PendingIdsNodup, emptyDb])

/-! ## Claim theorems -/

/-- Helper: every candidate accumulated in phase 1 passed the phase-1
acceptance test (dedup pre-check, excluded author, quality filter). -/
theorem mem_searchPhase1_accepts (db : Db) (now : Nat)
    (qr cr : List (String × List SearchTweet)) (c : Candidate)
    (h : c ∈ searchPhase1 db now qr cr) : phase1Accepts db now c.tweet = true := by
  unfold searchPhase1 at h
  rcases List.mem_append.mp h with h | h
  · obtain ⟨pr, _, hc⟩ := List.mem_flatMap.mp h
    unfold queryCandidates at hc
    obtain ⟨t, ht, rfl⟩ := List.mem_map.mp hc
    exact (List.mem_filter.mp ht).2
  · obtain ⟨pr, _, hc⟩ := List.mem_flatMap.mp h
    unfold communityCandidates at hc
    obtain ⟨t, ht, rfl⟩ := List.mem_map.mp hc
    exact (List.mem_filter.mp ht).2

/-- **C5 (counterexample).** The quality filter is not a pure function of
the candidate attributes alone: it reads the clock for the 24-hour staleness
check, so the same candidate is accepted at one evaluation instant and
rejected at a later one. -/
theorem C5_counterexample :
    passesTweetQualityFilter 0 qualityTweet = true ∧
    passesTweetQualityFilter 90000000 qualityTweet = false := by
  constructor <;> decide

/-- **C5 (amended).** The quality filter is deterministic given the
candidate attributes and the evaluation instant: at any fixed clock value
its verdict depends only on the reply flag, the text and the creation time
of the candidate — in particular two evaluations at the same instant on the
same attributes agree, whatever the id, author, url, follower count or
provenance. -/
theorem C5_filter_deterministic (now : Nat) (t t2 : SearchTweet)
    (h1 : t.isReply = t2.isReply) (h2 : t.text = t2.text)
    (h3 : t.createdAt = t2.createdAt) :
    passesTweetQualityFilter now t = passesTweetQualityFilter now t2 := by
  unfold passesTweetQualityFilter
  rw [h1, h2, h3]

/-- Witness for C5: two candidates sharing text, reply flag and timestamp
but differing in id, author, url, follower count and provenance get the
same verdict. -/
theorem C5_witness :
    passesTweetQualityFilter 0 qualityTweet = passesTweetQualityFilter 0 qualityTweetB :=
  C5_filter_deterministic 0 qualityTweet qualityTweetB rfl rfl rfl

/-- **C6.** Any candidate whose text is shorter than 30 characters is
rejected by the quality filter, and consequently no candidate of a search
cycle — hence no generation input — has text shorter than 30 characters. -/
theorem C6_short_text_rejected :
    (∀ (now : Nat) (t : SearchTweet), t.text.length < 30 →
      passesTweetQualityFilter now t = false) ∧
    (∀ (db : Db) (now : Nat) (qr cr : List (String × List SearchTweet)) (c : Candidate),
      c ∈ searchCycleCandidates db now qr cr → 30 ≤ c.tweet.text.length) := by
  have hshort : ∀ (now : Nat) (t : SearchTweet), t.text.length < 30 →
      passesTweetQualityFilter now t = false := by
    intro now t h
    have h2 : t.text.data.length < 30 := h
    simp [passesTweetQualityFilter, h2]
    intro _ h30
    omega
  refine ⟨hshort, ?_⟩
  intro db now qr cr c hc
  by_contra hlt
  push_neg at hlt
  have hmem : c ∈ searchPhase1 db now qr cr := List.mem_of_mem_take hc
  have hacc := mem_searchPhase1_accepts db now qr cr c hmem
  unfold phase1Accepts at hacc
  simp only [Bool.and_eq_true] at hacc
  have hq := hacc.2
  rw [hshort now c.tweet hlt] at hq
  exact Bool.false_ne_true hq

/-- Witness for C6: the 2-character post `"ok"` from a search query is
rejected by the quality filter. -/
theorem C6_witness : passesTweetQualityFilter 0 okTweet = false :=
  C6_short_text_rejected.1 0 okTweet (by decide)

/-- **C7.** The candidate list a search cycle passes to generation is
exactly the first `MAX_CANDIDATES = 20` accumulated candidates: overflow is
dropped (not carried over — the cycle is a function of the current inputs
only), at most 20 candidates exist per cycle, and phase 2 consumes exactly
this capped list. -/
theorem C7_candidate_cap (db : Db) (now : Nat)
    (qr cr : List (String × List SearchTweet)) :
    searchCycleCandidates db now qr cr =
      (searchPhase1 db now qr cr).take MAX_CANDIDATES ∧
    (searchCycleCandidates db now qr cr).length ≤ 20 ∧
    (∀ gen : Candidate → Option String,
      searchCycle db now qr cr gen =
        searchPhase2 (bumpSearchCounters db now qr cr) now
          ((searchCycleCandidates db now qr cr).map (fun c => (c, gen c)))) := by
  refine ⟨rfl, ?_, fun gen => rfl⟩
  unfold searchCycleCandidates MAX_CANDIDATES
  simp [List.length_take]

/-- **C1.** In every reachable store, at most one `pending_replies` row
exists per source post id, no matter which discovery strategies surfaced the
post or in how many cycles: every insert is guarded by the `tweet_id`
uniqueness constraint. -/
theorem C1_source_post_unique (db : Db) (h : Reachable db) (tweetId : String) :
    (db.pending.filter (fun r => r.tweet_id == tweetId)).length ≤ 1 := by
  have hnd := pendingIdsNodup_reachable db h
  unfold PendingIdsNodup at hnd
  have hcount := List.nodup_iff_count_le_one.mp hnd tweetId
  calc (db.pending.filter (fun r => r.tweet_id == tweetId)).length
      = (db.pending.map (fun r => r.tweet_id)).count tweetId := by
        simp [List.count_eq_countP, List.countP_map, ← List.countP_eq_length_filter,
          Function.comp_def]
    _ ≤ 1 := hcount

/-- Witness for C1: after a history in which on-demand fetch and account
polling both surface post `"12345"`, exactly one matching row exists. -/
theorem C1_witness :
    ((sampleOps.foldl applyOp emptyDb).pending.filter
        (fun r => r.tweet_id == "12345")).length ≤ 1 ∧
    ((sampleOps.foldl applyOp emptyDb).pending.filter
        (fun r => r.tweet_id == "12345")).length = 1 :=
  ⟨C1_source_post_unique _ ⟨sampleOps, rfl⟩ "12345", by decide⟩

/-- **C3 (counterexample).** A duplicate insert is not silently ignored: the
raw `INSERT` rejects with a UNIQUE-constraint error, and the phase-2 insert
of the search cycle is not inside a `try/catch`, so a post surfaced by two
queries in the same cycle aborts the cycle with that error — it does raise
out of the ingestion pipeline. -/
theorem C3_counterexample :
    insertPendingReply dbWith42
        (mkSearchInsert { tweet := sampleSearchTweet, sourceQuery := "build in public",
                          sourceType := "search" } "congrats") 0 =
      .error "UNIQUE constraint failed: pending_replies.tweet_id" ∧
    (searchCycle emptyDb 0
        [("build in public", [sampleSearchTweet]), ("indie hackers", [sampleSearchTweet])]
        [] (fun _ => some "congrats")).2 =
      some "UNIQUE constraint failed: pending_replies.tweet_id" := by
  constructor <;> decide

/-- **C3 (amended).** Duplicate source post ids are handled by pre-checking,
not by an ignorable insert: the raw insert of an existing id raises a
UNIQUE-constraint error; the account-poll body and the on-demand fetch skip
an already-present id before inserting, leaving the store unchanged and
raising nothing; and a search cycle accumulates only candidates whose id was
absent from the store at cycle start. -/
theorem C3_duplicate_handling (db : Db) (a : InsertArgs) (t : Tweet)
    (gen : Option String) (now : Nat)
    (ha : hasPendingTweetId db a.tweet_id = true)
    (ht : hasPendingTweetId db t.id = true) :
    insertPendingReply db a now =
      .error "UNIQUE constraint failed: pending_replies.tweet_id" ∧
    pollAccountTweetStep db t gen now = .ok (db, []) ∧
    (fetchCommand db t gen now).1 = db ∧
    (∀ (now2 : Nat) (qr cr : List (String × List SearchTweet)) (c : Candidate),
      c ∈ searchPhase1 db now2 qr cr → hasPendingTweetId db c.tweet.id = false) := by
  refine ⟨?_, ?_, ?_, ?_⟩
  · simp [insertPendingReply, ha]
  · simp [pollAccountTweetStep, ht]
  · simp [fetchCommand, ht]
  · intro now2 qr cr c hc
    have hacc := mem_searchPhase1_accepts db now2 qr cr c hc
    unfold phase1Accepts at hacc
    simp only [Bool.and_eq_true, Bool.not_eq_true'] at hacc
    exact hacc.1.1

/-- Witness for C3: against a store already holding post `"12345"`, the raw
insert errors, the poll body and the fetch handler skip without error, and a
phase-1 candidate id is always absent from the store. -/
theorem C3_witness :
    insertPendingReply dbWith42
        { tweet_id := "12345", tweet_text := "just shipped a new feature for my side project",
          tweet_author := "bob", tweet_url := some "https://x.com/bob/status/12345",
          generated_reply := "nice work", status := "pending",
          author_followers := none, source_query := none, source_type := "account" } 3 =
      .error "UNIQUE constraint failed: pending_replies.tweet_id" ∧
    pollAccountTweetStep dbWith42 sampleTweet (some "nice work") 3 = .ok (dbWith42, []) ∧
    (fetchCommand dbWith42 sampleTweet (some "nice work") 3).1 = dbWith42 ∧
    hasPendingTweetId dbWith42
      (({ tweet := qualityTweet, sourceQuery := "build in public",
          sourceType := "search" } : Candidate).tweet.id) = false := by
  have h := C3_duplicate_handling dbWith42
    { tweet_id := "12345", tweet_text := "just shipped a new feature for my side project",
      tweet_author := "bob", tweet_url := some "https://x.com/bob/status/12345",
      generated_reply := "nice work", status := "pending",
      author_followers := none, source_query := none, source_type := "account" }
    sampleTweet (some "nice work") 3 (by decide) (by decide)
  exact ⟨h.1, h.2.1, h.2.2.1,
    h.2.2.2 0 [("build in public", [qualityTweet])] []
      { tweet := qualityTweet, sourceQuery := "build in public", sourceType := "search" }
      (by decide)⟩

/-- **C2 (counterexample).** An edit command whose publish succeeds leaves
the row in status `'edited'`, not `'posted'`: `'edited'` is a persistent
terminal label here, never rewritten to `'posted'`. -/
theorem C2_counterexample :
    ((editCommand dbWith42 42 "my custom reply" (.success "777") 99).db.pending.map
      (fun r => r.status)) = ["edited"] ∧
    ¬ ((editCommand dbWith42 42 "my custom reply" (.success "777") 99).db.pending.map
      (fun r => r.status)) = ["posted"] := by
  constructor <;> decide

/-- **C2 (amended).** For a pending row, an edit command with
operator-supplied custom text attempts publish with exactly that text, and
on publish success the row moves to status `'edited'` (a terminal status the
status reports count alongside `'posted'`), with the supplied text persisted
as the final reply and the resolved timestamp stamped; all other rows are
untouched. -/
theorem C2_edit_custom_text (db : Db) (targetId : Nat) (replyText : String)
    (rid : String) (now : Nat) (p : PendingRow)
    (h : findPendingById db targetId = some p) :
    (editCommand db targetId replyText (.success rid) now).publishCalls =
      [(p.tweet_id, replyText)] ∧
    (editCommand db targetId replyText (.success rid) now).db.pending =
      db.pending.map (fun r =>
        if r.id == p.id then
          { r with status := "edited", final_reply := some replyText,
                   resolved_at := some now }
        else r) ∧
    (editCommand db targetId replyText (.success rid) now).messages =
      [Msg.customPosted p.tweet_author p.id] := by
  unfold editCommand
  rw [h]
  dsimp only [postReplyModel]
  refine ⟨rfl, ?_, rfl⟩
  rw [bumpRepliesSent_pending, logRepliedAuthor_pending]
  rfl

/-- Witness for C2: editing row 42 with custom text publishes that text and
marks the row `'edited'` with the text persisted and the time stamped. -/
theorem C2_witness :
    (editCommand dbWith42 42 "my custom reply" (.success "777") 99).publishCalls =
      [(pendingRow42.tweet_id, "my custom reply")] ∧
    (editCommand dbWith42 42 "my custom reply" (.success "777") 99).db.pending =
      dbWith42.pending.map (fun r =>
        if r.id == pendingRow42.id then
          { r with status := "edited", final_reply := some "my custom reply",
                   resolved_at := some 99 }
        else r) ∧
    (editCommand dbWith42 42 "my custom reply" (.success "777") 99).messages =
      [Msg.customPosted pendingRow42.tweet_author pendingRow42.id] :=
  C2_edit_custom_text dbWith42 42 "my custom reply" "777" 99 pendingRow42 (by decide)

/-- **C4.** When an approve command's publish call fails with HTTP 429, the
store is left completely unchanged (the row stays `pending` with
`final_reply` and `resolved_at` untouched), exactly one rate-limit alert is
sent, the failure is reported for the row, and exactly one publish call was
made (no retry within the command). -/
theorem C4_approve_rate_limited (db : Db) (targetId : Nat) (now : Nat) (p : PendingRow)
    (h : findPendingById db targetId = some p) :
    approveOne db targetId (.httpError 429) now =
      { db := db, publishCalls := [(p.tweet_id, p.generated_reply)],
        messages := [Msg.rateLimitAlert, Msg.postFailed p.id] } ∧
    (approveOne db targetId (.httpError 429) now).messages.count Msg.rateLimitAlert = 1 ∧
    (approveOne db targetId (.httpError 429) now).publishCalls.length = 1 := by
  unfold approveOne
  rw [h]
  dsimp only [postReplyModel]
  refine ⟨rfl, ?_, rfl⟩
  rfl

/-- Witness for C4: approving row 42 while the publisher returns HTTP 429
changes nothing in the store, sends one rate-limit alert and one failure
report, and makes a single publish attempt. -/
theorem C4_witness :
    approveOne dbWith42 42 (.httpError 429) 99 =
      { db := dbWith42, publishCalls := [(pendingRow42.tweet_id, pendingRow42.generated_reply)],
        messages := [Msg.rateLimitAlert, Msg.postFailed pendingRow42.id] } ∧
    (approveOne dbWith42 42 (.httpError 429) 99).messages.count Msg.rateLimitAlert = 1 ∧
    (approveOne dbWith42 42 (.httpError 429) 99).publishCalls.length = 1 :=
  C4_approve_rate_limited dbWith42 42 99 pendingRow42 (by decide)

/-- **C8.** A regenerate command updates only the generated-payload column
of the selected row: every row keeps its id, source post id, text, author,
url, final reply, status, creation and resolution timestamps and provenance;
no row is created or removed; the rest of the store is untouched. -/
theorem C8_regen_only_payload (db : Db) (idArg : Option Nat) (gen : Option String) :
    List.Forall₂ regenFrame db.pending (regenCommand db idArg gen).1.pending ∧
    (regenCommand db idArg gen).1.pending.length = db.pending.length ∧
    (regenCommand db idArg gen).1.nextPendingId = db.nextPendingId ∧
    (regenCommand db idArg gen).1.replied = db.replied ∧
    (regenCommand db idArg gen).1.searchQueries = db.searchQueries ∧
    (regenCommand db idArg gen).1.communities = db.communities := by
  have hrefl : List.Forall₂ regenFrame db.pending db.pending :=
    List.forall₂_same.mpr (fun a _ => by simp [regenFrame])
  unfold regenCommand
  dsimp only
  split
  · exact ⟨hrefl, rfl, rfl, rfl, rfl, rfl⟩
  · cases gen with
    | none => exact ⟨hrefl, rfl, rfl, rfl, rfl, rfl⟩
    | some newReply =>
      refine ⟨?_, by simp, rfl, rfl, rfl, rfl⟩
      rw [List.forall₂_map_right_iff]
      exact List.forall₂_same.mpr (fun a _ => by
        split <;> simp [regenFrame])

/-- **C9 (code bug).** On a failed per-author check the catch block does
advance `checked_follow_back_at` — but the cooldown this is meant to enforce
(the code's own comments: a 4-hour cooldown, "Still mark as checked to avoid
infinite retries") is broken.  The stamp is SQLite `CURRENT_TIMESTAMP` text
(`"YYYY-MM-DD HH:MM:SS"`) while the query cutoff is a `toISOString()` value
(`"YYYY-MM-DDTHH:MM:SS.sssZ"`); under BINARY collation the space at index 10
sorts below `'T'`, so a stamp on the same UTC day as the cutoff instant
always satisfies `checked_follow_back_at < cutoff`.  Concretely: the row
stamped by a failed check at 2026-01-15 11:00:00 UTC is selected again by a
cycle one hour later (cutoff `2026-01-15T08:00:00.000Z`), well inside the
4-hour cooldown — a permanently unreachable author is retried every
cycle. -/
theorem C9_cooldown_broken :
    (checkFeedbackAuthor dbWithCarol [] repliedCarol .error 1768474800000).replied =
      [{ repliedCarol with checked_follow_back_at := some "2026-01-15 11:00:00" }] ∧
    feedbackEligible 1768478400000
      { repliedCarol with checked_follow_back_at := some "2026-01-15 11:00:00" } =
      true ∧
    1768478400000 - 1768474800000 < 4 * 60 * 60 * 1000 := by
  refine ⟨?_, ?_, ?_⟩ <;> decide

/-- **C10.** None of the three entry parsers ever produces a candidate whose
text starts with `"RT @"`: retweets are filtered out in every parsing path
(account timeline, keyword search, community timeline) and can never enter
the pipeline. -/
theorem C10_parsers_reject_retweets :
    (∀ (entry : Json) (fallbackAuthor : String) (now : Nat) (t : Tweet),
      parseTweetEntry entry fallbackAuthor now = some t →
      startsWithStr "RT @" t.text = false) ∧
    (∀ (entry : Json) (q : String) (now : Nat) (t : SearchTweet),
      parseSearchTweetEntry entry q now = some t →
      startsWithStr "RT @" t.text = false) ∧
    (∀ (entry : Json) (q : String) (now : Nat) (t : SearchTweet),
      parseCommunityTweetEntry entry q now = some t →
      startsWithStr "RT @" t.text = false) := by
  refine ⟨?_, ?_, ?_⟩
  · intro entry fa now t h
    unfold parseTweetEntry at h
    dsimp only at h
    repeat' split at h
    all_goals try exact Option.noConfusion h
    all_goals injection h with h
    all_goals subst h
    all_goals dsimp only
    all_goals simp_all only [Bool.not_eq_true]
  · intro entry q now t h
    unfold parseSearchTweetEntry at h
    dsimp only at h
    repeat' split at h
    all_goals try exact Option.noConfusion h
    all_goals injection h with h
    all_goals subst h
    all_goals dsimp only
    all_goals simp_all only [Bool.not_eq_true]
  · intro entry q now t h
    unfold parseCommunityTweetEntry at h
    dsimp only at h
    repeat' split at h
    all_goals try exact Option.noConfusion h
    all_goals injection h with h
    all_goals subst h
    all_goals dsimp only
    all_goals simp_all only [Bool.not_eq_true]

/-- Witness for C10: three concrete entries that each parser accepts, whose
extracted texts do not start with `"RT @"`. -/
theorem C10_witness :
    startsWithStr "RT @" tweetA.text = false ∧
    startsWithStr "RT @" searchTweetB.text = false ∧
    startsWithStr "RT @" communityTweetC.text = false :=
  ⟨C10_parsers_reject_retweets.1 entryTimelineA "sam" 7 tweetA (by decide),
   C10_parsers_reject_retweets.2.1 entrySearchB "build in public" 7 searchTweetB (by decide),
   C10_parsers_reject_retweets.2.2 entryCommunityC "community:99" 7 communityTweetC (by decide)⟩
